import Mathlib

/-!
Shallow embedding of the asyncle platform I/O abstraction layer (Linux backend)
and proofs about its request/result/error contracts.

Sources embedded:
- `src/include/platform/mmap_linux.hpp` (memory-mapping manager)
- `src/include/platform/file_linux.hpp` (file resource manager)
- `src/src/platform/process_linux.cpp` (process resource manager)

Each syscall surface (`mmap`, `mlock`, `open`, `pipe`, `fork`, `waitpid`, ...)
is modelled as an oracle field in an `...OS` structure; the embedded functions
are pure functions of the request plus that oracle, and additionally return
traces (fds closed, regions unmapped, whether a syscall was issued) so that
cleanup obligations can be stated.  Machine integers are modelled as `Nat`
or `Int`, with `% 256` where the source truncates to `uint8_t`.
-/

deriving instance DecidableEq for Except

namespace Asyncle

/-! ## Linux errno constants (asm-generic values, x86-64) -/

def EPERM : Nat := 1
def ENOENT : Nat := 2
def EINTR : Nat := 4
def E2BIG : Nat := 7
def ECHILD : Nat := 10
def EAGAIN : Nat := 11
def ENOMEM : Nat := 12
def EACCES : Nat := 13
def EFAULT : Nat := 14
def EBUSY : Nat := 16
def EEXIST : Nat := 17
def ENODEV : Nat := 19
def ENOTDIR : Nat := 20
def EISDIR : Nat := 21
def EINVAL : Nat := 22
def ENFILE : Nat := 23
def EMFILE : Nat := 24
def EFBIG : Nat := 27
def ENOSPC : Nat := 28
def ESPIPE : Nat := 29
def EROFS : Nat := 30
def EPIPE : Nat := 32
def ENOSYS : Nat := 38
def ELOOP : Nat := 40

/-- On Linux `EWOULDBLOCK == EAGAIN`, so the `#if EAGAIN != EWOULDBLOCK`
branch of the errno tables is not compiled in. -/
def EWOULDBLOCK : Nat := 11

/-! ## Memory-mapping manager: `platform::mmap` (mmap.hpp / mmap_linux.hpp) -/

namespace Mmap

/-- `platform::mmap::error_domain` -/
inductive ErrorDomain
  | system
  | platform
  | feature
deriving DecidableEq, Repr

/-- `platform::mmap::error_code` -/
inductive ErrorCode
  | success
  | invalid_argument
  | no_memory
  | permission_denied
  | file_not_found
  | device_busy
  | io_error
  | no_such_device
  | address_in_use
  | bad_address
  | not_supported
  | large_pages_unavailable
  | sync_not_supported
  | lock_on_fault_unavailable
  | fixed_address_unavailable
deriving DecidableEq, Repr

/-- `platform::mmap::memory_error`: flattened {domain, platform_errno, code}. -/
structure MemoryError where
  domain : ErrorDomain
  platform_errno : Nat
  code : ErrorCode
deriving DecidableEq, Repr

/-- `memory_error(error_code c)`: domain defaults to `system`, errno to 0. -/
def MemoryError.ofCode (c : ErrorCode) : MemoryError := ⟨ErrorDomain.system, 0, c⟩

/-- `EADDRINUSE` (98 on Linux). -/
def EADDRINUSE : Nat := 98

/-- `mmap_linux.hpp detail::make_system_error`: the errno switch of the
memory manager.  `static_cast<uint8_t>(errno_val)` is `% 256`. -/
def make_system_error (e : Nat) : MemoryError :=
  let code :=
    if e = EINVAL then ErrorCode.invalid_argument
    else if e = ENOMEM then ErrorCode.no_memory
    else if e = EACCES then ErrorCode.permission_denied
    else if e = EPERM then ErrorCode.permission_denied
    else if e = ENOENT then ErrorCode.file_not_found
    else if e = EBUSY then ErrorCode.device_busy
    else if e = ENODEV then ErrorCode.no_such_device
    else if e = EADDRINUSE then ErrorCode.address_in_use
    else if e = EFAULT then ErrorCode.bad_address
    else if e = ENOSYS then ErrorCode.not_supported
    else ErrorCode.io_error
  ⟨ErrorDomain.system, e % 256, code⟩

/-- `platform::mmap::access_mode` is a `uint8_t` bitmask: modelled as the
raw value (read = 0x01, write = 0x02, execute = 0x04). -/
def accessRead : Nat := 0x01
def accessWrite : Nat := 0x02
def accessExecute : Nat := 0x04

inductive SharingMode
  | shared
  | private_cow
deriving DecidableEq, Repr

inductive BackingType
  | file_backed
  | anonymous
deriving DecidableEq, Repr

inductive PlacementStrategy
  | any_address
  | hint_address
  | fixed_address
  | fixed_no_replace
deriving DecidableEq, Repr

inductive PagePreference
  | system_default
  | prefer_large
  | require_large
deriving DecidableEq, Repr

inductive CommitStrategy
  | lazy_commit
  | pre_commit
deriving DecidableEq, Repr

inductive PopulateStrategy
  | none
  | prefault
  | hint_needed
deriving DecidableEq, Repr

inductive LockingStrategy
  | no_lock
  | lock_resident
  | lock_on_fault
deriving DecidableEq, Repr

inductive SyncSemantics
  | normal_sync
  | durable_sync
deriving DecidableEq, Repr

inductive AccessPattern
  | normal_access
  | sequential_access
  | random_access
deriving DecidableEq, Repr

/-- `platform::mmap::memory_request` (pointers modelled as `Nat`, 0 = null). -/
structure MemoryRequest where
  length : Nat
  offset : Nat
  address_hint : Nat
  alignment : Nat
  large_page_size : Nat
  access : Nat
  sharing : SharingMode
  backing : BackingType
  placement : PlacementStrategy
  page_pref : PagePreference
  commit : CommitStrategy
  populate : PopulateStrategy
  locking : LockingStrategy
  sync : SyncSemantics
  pattern : AccessPattern
  native_flags : Nat
  enable_native : Bool
deriving DecidableEq, Repr

/-- The defaulted `memory_request` constructor. -/
def defaultMemoryRequest : MemoryRequest where
  length := 0
  offset := 0
  address_hint := 0
  alignment := 0
  large_page_size := 0
  access := accessRead
  sharing := SharingMode.shared
  backing := BackingType.file_backed
  placement := PlacementStrategy.any_address
  page_pref := PagePreference.system_default
  commit := CommitStrategy.lazy_commit
  populate := PopulateStrategy.none
  locking := LockingStrategy.no_lock
  sync := SyncSemantics.normal_sync
  pattern := AccessPattern.normal_access
  native_flags := 0
  enable_native := false

/-- `platform::mmap::memory_region`. -/
structure MemoryRegion where
  address : Nat
  length : Nat
  actual_page_size : Nat
  file_descriptor : Int
  file_offset : Nat
  actual_access : Nat
  actual_sharing : SharingMode
  actual_pages : PagePreference
  is_locked : Bool
  supports_sync : Bool
deriving DecidableEq, Repr

/-! Linux `PROT_*`, `MAP_*`, `MADV_*`, `MLOCK_*` constants (x86-64). -/

def PROT_NONE : Nat := 0x0
def PROT_READ : Nat := 0x1
def PROT_WRITE : Nat := 0x2
def PROT_EXEC : Nat := 0x4
def MAP_SHARED : Nat := 0x01
def MAP_PRIVATE : Nat := 0x02
def MAP_FIXED : Nat := 0x10
def MAP_ANONYMOUS : Nat := 0x20
def MAP_POPULATE : Nat := 0x8000
def MAP_HUGETLB : Nat := 0x40000
def MAP_FIXED_NOREPLACE : Nat := 0x100000
def MAP_HUGE_2MB : Nat := 21 <<< 26
def MAP_HUGE_1GB : Nat := 30 <<< 26
def MADV_NORMAL : Nat := 0
def MADV_RANDOM : Nat := 1
def MADV_SEQUENTIAL : Nat := 2
def MADV_WILLNEED : Nat := 3
def MLOCK_ONFAULT : Nat := 1

/-- `detail::to_prot_flags` -/
def to_prot_flags (access : Nat) : Nat :=
  let prot := PROT_NONE
  let prot := if access &&& accessRead ≠ 0 then prot ||| PROT_READ else prot
  let prot := if access &&& accessWrite ≠ 0 then prot ||| PROT_WRITE else prot
  if access &&& accessExecute ≠ 0 then prot ||| PROT_EXEC else prot

/-- `detail::to_map_flags` (Linux: `MAP_FIXED_NOREPLACE`, `MAP_HUGETLB`,
`MAP_HUGE_2MB`, `MAP_HUGE_1GB` and `MAP_POPULATE` are all defined). -/
def to_map_flags (req : MemoryRequest) : Nat :=
  let flags : Nat :=
    match req.sharing with
    | SharingMode.shared => MAP_SHARED
    | SharingMode.private_cow => MAP_PRIVATE
  let flags := if req.backing = BackingType.anonymous then flags ||| MAP_ANONYMOUS else flags
  let flags :=
    match req.placement with
    | PlacementStrategy.fixed_address => flags ||| MAP_FIXED
    | PlacementStrategy.fixed_no_replace => flags ||| MAP_FIXED_NOREPLACE
    | _ => flags
  let flags :=
    if req.page_pref = PagePreference.prefer_large ∨ req.page_pref = PagePreference.require_large then
      let f := flags ||| MAP_HUGETLB
      if req.large_page_size ≠ 0 then
        if req.large_page_size = 2 * 1024 * 1024 then f ||| MAP_HUGE_2MB
        else if req.large_page_size = 1024 * 1024 * 1024 then f ||| MAP_HUGE_1GB
        else f
      else f
    else flags
  let flags :=
    if req.populate = PopulateStrategy.prefault ∨ req.commit = CommitStrategy.pre_commit then
      flags ||| MAP_POPULATE
    else flags
  if req.enable_native then flags ||| req.native_flags else flags

/-- Oracle for the OS calls issued by the memory manager.  `mmap` takes the
argument tuple actually passed by the code (hint, length, prot, flags, fd,
offset) and returns the mapped address or an errno; `madvise`, `mlock`,
`mlock2` return `none` on success or `some errno` on failure. -/
structure MmapOS where
  sysconf_page_size : Int
  sys_mmap : Nat → Nat → Nat → Nat → Int → Nat → Except Nat Nat
  sys_madvise : Nat → Nat → Nat → Option Nat
  sys_mlock : Nat → Nat → Option Nat
  sys_mlock2 : Nat → Nat → Nat → Option Nat

/-- `detail::get_page_size`: `sysconf(_SC_PAGESIZE)` with fallback 4096 when
the call does not return a positive value. -/
def get_page_size (os : MmapOS) : Nat :=
  if os.sysconf_page_size > 0 then os.sysconf_page_size.toNat else 4096

/-- `detail::apply_mlock`.  `MLOCK_ONFAULT` is defined on the Linux backend,
so `lock_on_fault` goes through `mlock2`. -/
def apply_mlock (os : MmapOS) (addr length : Nat) (strategy : LockingStrategy) :
    Except MemoryError Unit :=
  match strategy with
  | LockingStrategy.lock_resident =>
      match os.sys_mlock addr length with
      | Option.none => Except.ok ()
      | Option.some e => Except.error (make_system_error e)
  | LockingStrategy.lock_on_fault =>
      match os.sys_mlock2 addr length MLOCK_ONFAULT with
      | Option.none => Except.ok ()
      | Option.some e => Except.error (make_system_error e)
  | LockingStrategy.no_lock => Except.ok ()

/-- Result of `map_memory_impl` together with the unmap and madvise calls it
issued (`munmaps` records each `::munmap(addr, len)`, `madvises` each
`::madvise(addr, len, advice)` whose result the code discards). -/
structure MapOutcome where
  result : Except MemoryError MemoryRegion
  munmaps : List (Nat × Nat)
  madvises : List (Nat × Nat × Nat)
deriving DecidableEq, Repr

/-- `map_memory_impl` from mmap_linux.hpp.  The two `apply_madvise` calls
(access-pattern advice and the `MADV_WILLNEED` population hint) have their
results discarded by the source, so they are recorded in the trace and the
oracle's answer for them is intentionally unused. -/
def map_memory (os : MmapOS) (file_descriptor : Int) (request : MemoryRequest) : MapOutcome :=
  if request.length = 0 then
    ⟨Except.error (MemoryError.ofCode ErrorCode.invalid_argument), [], []⟩
  else if request.offset % get_page_size os ≠ 0 then
    ⟨Except.error (MemoryError.ofCode ErrorCode.invalid_argument), [], []⟩
  else
    let prot_flags := to_prot_flags request.access
    let map_flags := to_map_flags request
    let hint_addr := if request.placement = PlacementStrategy.any_address then 0 else request.address_hint
    match os.sys_mmap hint_addr request.length prot_flags map_flags
        (if request.backing = BackingType.anonymous then -1 else file_descriptor)
        request.offset with
    | Except.error e => ⟨Except.error (make_system_error e), [], []⟩
    | Except.ok mapped_addr =>
      let region : MemoryRegion :=
        { address := mapped_addr
          length := request.length
          actual_page_size := get_page_size os
          file_descriptor := if request.backing = BackingType.anonymous then -1 else file_descriptor
          file_offset := request.offset
          actual_access := request.access
          actual_sharing := request.sharing
          actual_pages := PagePreference.system_default
          is_locked := false
          supports_sync := request.backing = BackingType.file_backed }
      -- access-pattern advice: issued, result discarded (non-fatal)
      let advice_calls : List (Nat × Nat × Nat) :=
        if request.pattern ≠ AccessPattern.normal_access then
          let advice :=
            match request.pattern with
            | AccessPattern.sequential_access => MADV_SEQUENTIAL
            | AccessPattern.random_access => MADV_RANDOM
            | _ => MADV_NORMAL
          [(mapped_addr, request.length, advice)]
        else []
      -- memory locking: the only post-mapping step whose failure is recorded
      let lock_step : Bool × MemoryError × MemoryRegion :=
        if request.locking ≠ LockingStrategy.no_lock then
          match apply_mlock os mapped_addr request.length request.locking with
          | Except.error e => (true, e, region)
          | Except.ok _ => (false, ⟨ErrorDomain.system, 0, ErrorCode.success⟩,
              { region with is_locked := true })
        else (false, ⟨ErrorDomain.system, 0, ErrorCode.success⟩, region)
      -- population hint: issued unless MAP_POPULATE already set, result discarded
      let populate_calls : List (Nat × Nat × Nat) :=
        if request.populate = PopulateStrategy.hint_needed ∧ map_flags &&& MAP_POPULATE = 0 then
          [(mapped_addr, request.length, MADV_WILLNEED)]
        else []
      let region2 :=
        if request.page_pref ≠ PagePreference.system_default then
          { lock_step.2.2 with actual_pages := request.page_pref }
        else lock_step.2.2
      if lock_step.1 then
        ⟨Except.error lock_step.2.1, [(mapped_addr, request.length)], advice_calls ++ populate_calls⟩
      else
        ⟨Except.ok region2, [], advice_calls ++ populate_calls⟩

end Mmap

/-! ## File resource manager: `platform::file` (file.hpp / file_linux.hpp) -/

namespace File

/-- `platform::file::error_domain` -/
inductive ErrorDomain
  | system
  | platform
  | feature
deriving DecidableEq, Repr

/-- `platform::file::error_code` -/
inductive ErrorCode
  | success
  | io_error
  | invalid_argument
  | no_memory
  | permission_denied
  | file_not_found
  | file_exists
  | is_directory
  | not_directory
  | too_many_files
  | file_too_large
  | no_space
  | invalid_seek
  | read_only_fs
  | broken_pipe
  | would_block
  | interrupted
  | not_supported
  | platform_specific
deriving DecidableEq, Repr

/-- `platform::file::file_error`. -/
structure FileError where
  domain : ErrorDomain
  platform_errno : Nat
  code : ErrorCode
deriving DecidableEq, Repr

/-- `file_error(error_code c)`. -/
def FileError.ofCode (c : ErrorCode) : FileError := ⟨ErrorDomain.system, 0, c⟩

/-- The errnos that appear as cases in the file manager's
`detail::make_system_error` switch (`EWOULDBLOCK == EAGAIN` on Linux, so
there is no separate case for it). -/
def mapped_errnos : List Nat :=
  [EINVAL, ENOMEM, EACCES, EPERM, ENOENT, EEXIST, EISDIR, ENOTDIR,
   EMFILE, ENFILE, EFBIG, ENOSPC, ESPIPE, EROFS, EPIPE, EAGAIN, EINTR, ENOSYS]

/-- `file_linux.hpp detail::make_system_error`: the errno switch of the file
manager.  Default bucket is `io_error`; `static_cast<uint8_t>` is `% 256`. -/
def make_system_error (e : Nat) : FileError :=
  let code :=
    if e = EINVAL then ErrorCode.invalid_argument
    else if e = ENOMEM then ErrorCode.no_memory
    else if e = EACCES then ErrorCode.permission_denied
    else if e = EPERM then ErrorCode.permission_denied
    else if e = ENOENT then ErrorCode.file_not_found
    else if e = EEXIST then ErrorCode.file_exists
    else if e = EISDIR then ErrorCode.is_directory
    else if e = ENOTDIR then ErrorCode.not_directory
    else if e = EMFILE then ErrorCode.too_many_files
    else if e = ENFILE then ErrorCode.too_many_files
    else if e = EFBIG then ErrorCode.file_too_large
    else if e = ENOSPC then ErrorCode.no_space
    else if e = ESPIPE then ErrorCode.invalid_seek
    else if e = EROFS then ErrorCode.read_only_fs
    else if e = EPIPE then ErrorCode.broken_pipe
    else if e = EAGAIN then ErrorCode.would_block
    else if e = EINTR then ErrorCode.interrupted
    else if e = ENOSYS then ErrorCode.not_supported
    else ErrorCode.io_error
  ⟨ErrorDomain.system, e % 256, code⟩

/-! `platform::file::access_mode` bit values. -/

def amRead : Nat := 0x01
def amWrite : Nat := 0x02
def amReadWrite : Nat := 0x03
def amAppend : Nat := 0x04
def amTruncate : Nat := 0x08
def amCreate : Nat := 0x10
def amExclusive : Nat := 0x20
def amDirect : Nat := 0x40
def amSync : Nat := 0x80

/-! Linux `O_*` flag values (x86-64, octal as in fcntl.h). -/

def O_RDONLY : Nat := 0
def O_WRONLY : Nat := 1
def O_RDWR : Nat := 2
def O_CREAT : Nat := 0o100
def O_EXCL : Nat := 0o200
def O_TRUNC : Nat := 0o1000
def O_APPEND : Nat := 0o2000
def O_DIRECT : Nat := 0o40000
def O_SYNC : Nat := 0o4010000

/-- `detail::to_open_flags`. -/
def to_open_flags (access : Nat) : Nat :=
  let flags :=
    if access &&& 0x03 = amReadWrite then O_RDWR
    else if access &&& amWrite ≠ 0 then O_WRONLY
    else O_RDONLY
  let flags := if access &&& amAppend ≠ 0 then flags ||| O_APPEND else flags
  let flags := if access &&& amTruncate ≠ 0 then flags ||| O_TRUNC else flags
  let flags := if access &&& amCreate ≠ 0 then flags ||| O_CREAT else flags
  let flags := if access &&& amExclusive ≠ 0 then flags ||| O_EXCL else flags
  let flags := if access &&& amDirect ≠ 0 then flags ||| O_DIRECT else flags
  if access &&& amSync ≠ 0 then flags ||| O_SYNC else flags

/-- `platform::file::file_handle`: descriptor + the flags it was opened with. -/
structure FileHandle where
  fd : Int
  flags : Nat
deriving DecidableEq, Repr

/-- `platform::file::file_request` (reserved padding fields omitted). -/
structure FileRequest where
  access : Nat
  permissions : Nat
  native_flags : Nat
deriving DecidableEq, Repr

/-- The defaulted `file_request` constructor. -/
def defaultFileRequest : FileRequest := ⟨amRead, 0o644, 0⟩

/-- Oracle for the `::open` syscall: path, flags, mode ↦ errno or a fresh
non-negative descriptor. -/
structure FileOS where
  sys_open : String → Nat → Nat → Except Nat Nat

/-- `open_file_impl` from file_linux.hpp: computes the flag word, ORs in any
native flags, and hands the path to the OS `open` unconditionally — there is
no validation of `path` before the syscall. -/
def open_file (os : FileOS) (path : String) (request : FileRequest) :
    Except FileError FileHandle :=
  let flags := to_open_flags request.access
  let flags := if request.native_flags ≠ 0 then flags ||| request.native_flags else flags
  match os.sys_open path flags request.permissions with
  | Except.error e => Except.error (make_system_error e)
  | Except.ok fd => Except.ok ⟨(fd : Int), flags⟩

/-- The code the file manager reports for a result, if it is an error. -/
def errorCodeOf (r : Except FileError FileHandle) : Option ErrorCode :=
  match r with
  | Except.error e => Option.some e.code
  | Except.ok _ => Option.none

/-! ### Positioned vs stream I/O (read_file_impl / write_file_impl)

The shared file-offset state behind a descriptor is modelled from the POSIX
contract of the syscall boundary (§6 of the spec): for a regular file,
`read` transfers `min(len, size - pos)` bytes and advances the position,
`pread` transfers `min(len, size - off)` bytes and leaves the position
alone, `write`/`pwrite` store the buffer (zero-filling any gap) with only
`write` advancing the position, and `lseek(fd, 0, SEEK_CUR)` reports the
position without moving it. -/

/-- Kernel-side state of an open regular file: contents and shared position. -/
structure FileSt where
  data : List Nat
  pos : Nat
deriving DecidableEq, Repr

/-- `::read(fd, buf, len)` on a regular file. -/
def sys_read (st : FileSt) (len : Nat) : Nat × FileSt :=
  let n := min len (st.data.length - st.pos)
  (n, { st with pos := st.pos + n })

/-- `::pread(fd, buf, len, off)` on a regular file. -/
def sys_pread (st : FileSt) (len off : Nat) : Nat × FileSt :=
  (min len (st.data.length - off), st)

/-- Store `buf` into `data` at byte offset `off`, zero-filling a gap past EOF. -/
def store_bytes (data : List Nat) (off : Nat) (buf : List Nat) : List Nat :=
  data.take off ++ List.replicate (off - data.length) 0 ++ buf ++ data.drop (off + buf.length)

/-- `::write(fd, buf, len)` on a regular file (no `O_APPEND`). -/
def sys_write (st : FileSt) (buf : List Nat) : Nat × FileSt :=
  (buf.length, { data := store_bytes st.data st.pos buf, pos := st.pos + buf.length })

/-- `::pwrite(fd, buf, len, off)` on a regular file. -/
def sys_pwrite (st : FileSt) (buf : List Nat) (off : Nat) : Nat × FileSt :=
  (buf.length, { st with data := store_bytes st.data off buf })

/-- `::lseek(fd, 0, SEEK_CUR)`. -/
def sys_lseek_cur (st : FileSt) : Nat := st.pos

/-- `static_cast<uint64_t>(-1)`: the "current position" offset sentinel. -/
def CURRENT_POS : Nat := 2 ^ 64 - 1

/-- `platform::file::io_request`: `buffer` is the bytes in user memory at the
buffer pointer (used by writes), `offset` the `uint64_t` file offset. -/
structure IoRequest where
  buffer : List Nat
  offset : Nat
  length : Nat
deriving DecidableEq, Repr

/-- `platform::file::io_result`. -/
structure IoResult where
  bytes_transferred : Nat
  new_offset : Nat
deriving DecidableEq, Repr

/-- `read_file_impl`: `pread` at `request.offset` unless the offset is the
all-ones sentinel, in which case a plain `read`; afterwards the current
position is sampled with `lseek(fd, 0, SEEK_CUR)`. -/
def read_file (st : FileSt) (request : IoRequest) : Except FileError IoResult × FileSt :=
  let step :=
    if request.offset ≠ CURRENT_POS then sys_pread st request.length request.offset
    else sys_read st request.length
  let new_pos := sys_lseek_cur step.2
  (Except.ok ⟨step.1, new_pos⟩, step.2)

/-- `write_file_impl`: `pwrite` at `request.offset` unless the offset is the
all-ones sentinel, in which case a plain `write`.  The bytes written are the
first `request.length` bytes at the buffer pointer. -/
def write_file (st : FileSt) (request : IoRequest) : Except FileError IoResult × FileSt :=
  let buf := request.buffer.take request.length
  let step :=
    if request.offset ≠ CURRENT_POS then sys_pwrite st buf request.offset
    else sys_write st buf
  let new_pos := sys_lseek_cur step.2
  (Except.ok ⟨step.1, new_pos⟩, step.2)

end File

/-! ## Process resource manager: `platform::process` (process.hpp /
process_linux.hpp / process_linux.cpp) -/

namespace Proc

/-- `platform::process::error_domain` -/
inductive ErrorDomain
  | system
  | platform
  | feature
deriving DecidableEq, Repr

/-- `platform::process::error_code` -/
inductive ErrorCode
  | success
  | io_error
  | invalid_argument
  | no_memory
  | permission_denied
  | not_found
  | already_exists
  | too_many_processes
  | would_block
  | interrupted
  | broken_pipe
  | process_not_found
  | process_terminated
  | not_supported
  | platform_specific
deriving DecidableEq, Repr

/-- `platform::process::process_error`. -/
structure ProcessError where
  domain : ErrorDomain
  platform_errno : Nat
  code : ErrorCode
deriving DecidableEq, Repr

/-- `process_error(error_code c)`. -/
def ProcessError.ofCode (c : ErrorCode) : ProcessError := ⟨ErrorDomain.system, 0, c⟩

/-- `process_linux.hpp detail::make_system_error`: the errno switch of the
process manager. -/
def make_system_error (e : Nat) : ProcessError :=
  let code :=
    if e = EACCES then ErrorCode.permission_denied
    else if e = ENOENT then ErrorCode.not_found
    else if e = ENOMEM then ErrorCode.no_memory
    else if e = EAGAIN then ErrorCode.would_block
    else if e = EINTR then ErrorCode.interrupted
    else if e = EPIPE then ErrorCode.broken_pipe
    else if e = ECHILD then ErrorCode.process_not_found
    else if e = EINVAL then ErrorCode.invalid_argument
    else if e = E2BIG then ErrorCode.invalid_argument
    else if e = ELOOP then ErrorCode.io_error
    else if e = ENFILE then ErrorCode.too_many_processes
    else if e = EMFILE then ErrorCode.too_many_processes
    else ErrorCode.io_error
  ⟨ErrorDomain.system, e % 256, code⟩

/-- `platform::process::pipe_mode` -/
inductive PipeMode
  | none
  | pipe
  | inherit
deriving DecidableEq, Repr

/-! `platform::process::spawn_flags` bit values. -/

def sfNewProcessGroup : Nat := 0x01
def sfDetached : Nat := 0x02
def sfSearchPath : Nat := 0x04

/-- `platform::process::pipe_handle`. -/
structure PipeHandle where
  fd : Int
  flags : Nat
deriving DecidableEq, Repr

/-- `pipe_handle::is_valid`. -/
def PipeHandle.is_valid (p : PipeHandle) : Bool := p.fd ≥ 0

/-- `platform::process::process_handle`. -/
structure ProcessHandle where
  pid : Int
  flags : Nat
  exit_code : Int
  state : Nat
deriving DecidableEq, Repr

/-- `process_handle::is_valid`. -/
def ProcessHandle.is_valid (h : ProcessHandle) : Bool := h.pid > 0

/-- `platform::process::spawn_request` (null pointers modelled as `none`). -/
structure SpawnRequest where
  executable : Option String
  args : List String
  env : Option (List String)
  working_dir : Option String
  stdin_mode : PipeMode
  stdout_mode : PipeMode
  stderr_mode : PipeMode
  flags : Nat
deriving DecidableEq, Repr

/-- `platform::process::io_request` (buffer pointer: `none` = null; the list
is the user memory at the pointer). -/
structure IoRequest where
  buffer : Option (List Nat)
  length : Nat
  timeout : Nat
  flags : Nat
deriving DecidableEq, Repr

/-- `platform::process::io_result`. -/
structure IoResult where
  bytes_transferred : Nat
  operation_flags : Nat
deriving DecidableEq, Repr

/-! ### wait_process_impl -/

/-- Outcome of a `waitpid(pid, &status, opts)` call: `fail e` for a negative
return with errno `e`, `running` for a zero return (only produced under
`WNOHANG`), `exited status` for a reaped child with raw status word. -/
inductive WaitOutcome
  | fail (errno_val : Nat)
  | running
  | exited (status : Nat)
deriving DecidableEq, Repr

/-- Oracle for the process-wait syscall: pid and the `no_hang` flag
(`WNOHANG`) determine the outcome. -/
structure WaitOS where
  sys_waitpid : Int → Bool → WaitOutcome

/-- glibc `WIFEXITED(status)`: low seven bits zero. -/
def wifexited (status : Nat) : Bool := status % 128 = 0

/-- glibc `WEXITSTATUS(status)`: bits 8..15. -/
def wexitstatus (status : Nat) : Nat := status / 256 % 256

/-- glibc `WIFSIGNALED(status)`: low seven bits in 1..126 (127 is the
stopped marker, 0 a normal exit). -/
def wifsignaled (status : Nat) : Bool := status % 128 ≠ 0 && status % 128 ≠ 127

/-- glibc `WTERMSIG(status)`: the low seven bits. -/
def wtermsig (status : Nat) : Nat := status % 128

/-- `wait_process_impl` from process_linux.cpp: validates the handle, calls
`waitpid` (with `WNOHANG` iff `no_hang`), maps a zero return to
`would_block`, decodes the status word, and caches the exit code in the
handle while setting its state to terminated (1). -/
def wait_process (os : WaitOS) (handle : ProcessHandle) (no_hang : Bool) :
    Except ProcessError Int × ProcessHandle :=
  if ¬ handle.is_valid then
    (Except.error (ProcessError.ofCode ErrorCode.invalid_argument), handle)
  else
    match os.sys_waitpid handle.pid no_hang with
    | WaitOutcome.fail e => (Except.error (make_system_error e), handle)
    | WaitOutcome.running => (Except.error (ProcessError.ofCode ErrorCode.would_block), handle)
    | WaitOutcome.exited status =>
      let exit_code : Int :=
        if wifexited status then (wexitstatus status : Int)
        else if wifsignaled status then 128 + (wtermsig status : Int)
        else -1
      (Except.ok exit_code, { handle with exit_code := exit_code, state := 1 })

/-! ### spawn_process_impl: child branch after fork -/

/-- Oracle for the syscalls issued in the child between `fork` and `exec`:
`sys_dup2 old new` succeeds or not, `sys_open_null flags` yields the
`/dev/null` descriptor (or `none` on failure, which the child ignores),
`sys_chdir dir` succeeds or not, `exec_ok` tells whether `execve`/`execv`
replaces the image. -/
structure ChildOS where
  sys_dup2 : Int → Nat → Bool
  sys_open_null : Nat → Option Int
  sys_chdir : String → Bool
  exec_ok : Bool

/-- How the child branch of `spawn_process_impl` ends: either the new image
is executed, or the child terminates via `_exit(code)`.  There is no
constructor for returning into parent code. -/
inductive ChildOutcome
  | execed
  | exited (code : Nat)
deriving DecidableEq, Repr

/-- The tail of the child branch: `chdir` if requested (failure ⇒
`_exit(127)`), optional `setpgid` (result ignored), then `execve`/`execv`;
if exec returns, `_exit(127)`. -/
def child_exec_step (os : ChildOS) (request : SpawnRequest) : ChildOutcome :=
  match request.working_dir with
  | Option.some d =>
      if ¬ os.sys_chdir d then ChildOutcome.exited 127
      else if os.exec_ok then ChildOutcome.execed else ChildOutcome.exited 127
  | Option.none =>
      if os.exec_ok then ChildOutcome.execed else ChildOutcome.exited 127

/-- The child branch of `spawn_process_impl` (process_linux.cpp, `pid == 0`).
Per stream: in `pipe` mode the child end is `dup2`-ed onto the standard
descriptor and a failure is `_exit(127)`; in `none` mode `/dev/null` is
opened and `dup2`-ed with both failures ignored; `inherit` leaves the
descriptor alone.  The `close` calls on pipe ends have no observable effect
on the child's outcome and are not tracked. -/
def child_run (os : ChildOS) (request : SpawnRequest)
    (stdin_fds stdout_fds stderr_fds : Int × Int) : ChildOutcome :=
  if request.stdin_mode = PipeMode.pipe ∧ ¬ os.sys_dup2 stdin_fds.1 0 then
    ChildOutcome.exited 127
  else if request.stdout_mode = PipeMode.pipe ∧ ¬ os.sys_dup2 stdout_fds.2 1 then
    ChildOutcome.exited 127
  else if request.stderr_mode = PipeMode.pipe ∧ ¬ os.sys_dup2 stderr_fds.2 2 then
    ChildOutcome.exited 127
  else
    child_exec_step os request

/-! ### spawn_process_impl: parent side (pipe creation, fork, cleanup) -/

/-- Oracle for the parent-side syscalls of `spawn_process_impl`: one `pipe()`
answer per requested stream (fd pair or errno) and the `fork()` answer
(child pid or errno; the child branch is modelled separately by
`child_run`).  `fcntl` calls for `FD_CLOEXEC` / `O_NONBLOCK` have their
results ignored by the source and are not modelled. -/
structure SpawnOS where
  sys_pipe_stdin : Except Nat (Int × Int)
  sys_pipe_stdout : Except Nat (Int × Int)
  sys_pipe_stderr : Except Nat (Int × Int)
  sys_fork : Except Nat Int

/-- Everything `spawn_process_impl` hands back or does on the parent side:
the returned value, every fd it closed, the pipe handles written through the
out-parameters, and whether `fork` was reached. -/
structure SpawnOutcome where
  result : Except ProcessError ProcessHandle
  closed : List Int
  stdin_pipe : Option PipeHandle
  stdout_pipe : Option PipeHandle
  stderr_pipe : Option PipeHandle
  forked : Bool
deriving DecidableEq, Repr

/-- Both descriptors of an (optionally) created pipe pair, in close order. -/
def close_pair (p : Option (Int × Int)) : List Int :=
  match p with
  | Option.some (a, b) => [a, b]
  | Option.none => []

/-- `spawn_process_impl` (parent view): validate the executable pointer,
create the requested pipes in the fixed order stdin, stdout, stderr —
closing every previously created pair and bailing out if a later `pipe()`
fails — then fork (closing all pairs and bailing out if it fails), and in
the parent close the child ends, set the retained ends non-blocking, and
hand out their handles. -/
def spawn_process (os : SpawnOS) (request : SpawnRequest) : SpawnOutcome :=
  if request.executable = Option.none then
    ⟨Except.error (ProcessError.ofCode ErrorCode.invalid_argument),
     [], Option.none, Option.none, Option.none, false⟩
  else
    match (if request.stdin_mode = PipeMode.pipe
           then os.sys_pipe_stdin.map Option.some else Except.ok Option.none) with
    | Except.error e =>
        ⟨Except.error (make_system_error e), [], Option.none, Option.none, Option.none, false⟩
    | Except.ok stdin_fds =>
      match (if request.stdout_mode = PipeMode.pipe
             then os.sys_pipe_stdout.map Option.some else Except.ok Option.none) with
      | Except.error e =>
          ⟨Except.error (make_system_error e), close_pair stdin_fds,
           Option.none, Option.none, Option.none, false⟩
      | Except.ok stdout_fds =>
        match (if request.stderr_mode = PipeMode.pipe
               then os.sys_pipe_stderr.map Option.some else Except.ok Option.none) with
        | Except.error e =>
            ⟨Except.error (make_system_error e), close_pair stdin_fds ++ close_pair stdout_fds,
             Option.none, Option.none, Option.none, false⟩
        | Except.ok stderr_fds =>
          match os.sys_fork with
          | Except.error e =>
              ⟨Except.error (make_system_error e),
               close_pair stdin_fds ++ close_pair stdout_fds ++ close_pair stderr_fds,
               Option.none, Option.none, Option.none, true⟩
          | Except.ok pid =>
              ⟨Except.ok ⟨pid, request.flags, -1, 0⟩,
               (match stdin_fds with | Option.some p => [p.1] | Option.none => []) ++
               (match stdout_fds with | Option.some p => [p.2] | Option.none => []) ++
               (match stderr_fds with | Option.some p => [p.2] | Option.none => []),
               (stdin_fds.map fun p => ⟨p.2, 0⟩),
               (stdout_fds.map fun p => ⟨p.1, 0⟩),
               (stderr_fds.map fun p => ⟨p.1, 0⟩),
               true⟩

/-! ### Pipe I/O and close -/

/-- Oracle for the pipe syscalls: `sys_close` returns `none` on success,
`sys_read_fd fd len` the bytes delivered or an errno, `sys_write_fd fd buf`
the count accepted or an errno. -/
structure PipeOS where
  sys_close : Int → Option Nat
  sys_read_fd : Int → Nat → Except Nat (List Nat)
  sys_write_fd : Int → List Nat → Except Nat Nat

/-- `read_pipe_impl`: argument guard, then a single `read`; `EAGAIN` /
`EWOULDBLOCK` are reported as `would_block`.  The second component records
whether the OS `read` was issued. -/
def read_pipe (os : PipeOS) (pipe : PipeHandle) (request : IoRequest) :
    Except ProcessError IoResult × Bool :=
  if ¬ pipe.is_valid ∨ request.buffer = Option.none ∨ request.length = 0 then
    (Except.error (ProcessError.ofCode ErrorCode.invalid_argument), false)
  else
    match os.sys_read_fd pipe.fd request.length with
    | Except.error e =>
        if e = EAGAIN ∨ e = EWOULDBLOCK then
          (Except.error (ProcessError.ofCode ErrorCode.would_block), true)
        else (Except.error (make_system_error e), true)
    | Except.ok bytes => (Except.ok ⟨bytes.length, 0⟩, true)

/-- `write_pipe_impl`: argument guard, then a single `write`; `EAGAIN` /
`EWOULDBLOCK` are reported as `would_block`. -/
def write_pipe (os : PipeOS) (pipe : PipeHandle) (request : IoRequest) :
    Except ProcessError IoResult × Bool :=
  if ¬ pipe.is_valid ∨ request.buffer = Option.none ∨ request.length = 0 then
    (Except.error (ProcessError.ofCode ErrorCode.invalid_argument), false)
  else
    match os.sys_write_fd pipe.fd ((request.buffer.getD []).take request.length) with
    | Except.error e =>
        if e = EAGAIN ∨ e = EWOULDBLOCK then
          (Except.error (ProcessError.ofCode ErrorCode.would_block), true)
        else (Except.error (make_system_error e), true)
    | Except.ok n => (Except.ok ⟨n, 0⟩, true)

/-- `close_pipe_impl`: success (without touching the handle) on an invalid
descriptor; otherwise `close` the fd, propagate its errno, and mark the
handle invalid only on success. -/
def close_pipe (os : PipeOS) (pipe : PipeHandle) :
    Except ProcessError Unit × PipeHandle :=
  if ¬ pipe.is_valid then (Except.ok (), pipe)
  else
    match os.sys_close pipe.fd with
    | Option.some e => (Except.error (make_system_error e), pipe)
    | Option.none => (Except.ok (), { pipe with fd := -1 })

end Proc

/-! ## Concrete oracle instances used by counterexamples and witnesses -/

/-- A Linux-like memory OS: 4096-byte pages, `mmap` grants a page-aligned
address, `madvise`/`mlock`/`mlock2` succeed. -/
def c1x_os : Mmap.MmapOS where
  sysconf_page_size := 4096
  sys_mmap := fun _ _ _ _ _ _ => Except.ok 4096
  sys_madvise := fun _ _ _ => Option.none
  sys_mlock := fun _ _ => Option.none
  sys_mlock2 := fun _ _ _ => Option.none

/-- An anonymous mapping request whose length (100) is not a multiple of the
4096-byte system page size. -/
def c1x_req : Mmap.MemoryRequest :=
  { Mmap.defaultMemoryRequest with length := 100, backing := Mmap.BackingType.anonymous }

/-- The region `map_memory` grants for `c1x_req` under `c1x_os`. -/
def c1x_region : Mmap.MemoryRegion where
  address := 4096
  length := 100
  actual_page_size := 4096
  file_descriptor := -1
  file_offset := 0
  actual_access := Mmap.accessRead
  actual_sharing := Mmap.SharingMode.shared
  actual_pages := Mmap.PagePreference.system_default
  is_locked := false
  supports_sync := false

/-- An anonymous mapping request of two whole pages. -/
def c1w_req : Mmap.MemoryRequest :=
  { Mmap.defaultMemoryRequest with length := 8192, backing := Mmap.BackingType.anonymous }

/-- The region `map_memory` grants for `c1w_req` under `c1x_os`. -/
def c1w_region : Mmap.MemoryRegion where
  address := 4096
  length := 8192
  actual_page_size := 4096
  file_descriptor := -1
  file_offset := 0
  actual_access := Mmap.accessRead
  actual_sharing := Mmap.SharingMode.shared
  actual_pages := Mmap.PagePreference.system_default
  is_locked := false
  supports_sync := false

/-- A POSIX-behaved `open` oracle: an empty path cannot name a file, so the
OS fails it with `ENOENT`; any other path opens as descriptor 3. -/
def c2x_os : File.FileOS where
  sys_open := fun path _ _ => if path = "" then Except.error ENOENT else Except.ok 3

/-- A memory OS whose `mlock` always fails with `EPERM` (e.g. an exceeded
`RLIMIT_MEMLOCK`); everything else behaves like `c1x_os`. -/
def c3x_os : Mmap.MmapOS where
  sysconf_page_size := 4096
  sys_mmap := fun _ _ _ _ _ _ => Except.ok 4096
  sys_madvise := fun _ _ _ => Option.none
  sys_mlock := fun _ _ => Option.some EPERM
  sys_mlock2 := fun _ _ _ => Option.none

/-- A one-page anonymous request asking for resident locking. -/
def c3x_req : Mmap.MemoryRequest :=
  { Mmap.defaultMemoryRequest with
      length := 4096
      backing := Mmap.BackingType.anonymous
      locking := Mmap.LockingStrategy.lock_resident }

/-- A four-byte file whose shared position is 1. -/
def c4x_st : File.FileSt := ⟨[10, 20, 30, 40], 1⟩

/-- A stream-mode I/O request (offset = the all-ones sentinel). -/
def c4x_stream_req : File.IoRequest := ⟨[], File.CURRENT_POS, 2⟩

/-- A positioned I/O request at offset 2. -/
def c4x_pos_req : File.IoRequest := ⟨[7], 2, 1⟩

/-- A wait oracle: polling finds the child still running, a blocking wait
reaps it with raw status 9 (terminated by SIGKILL). -/
def c6x_os : Proc.WaitOS where
  sys_waitpid := fun _ no_hang =>
    if no_hang then Proc.WaitOutcome.running else Proc.WaitOutcome.exited 9

/-- A wait oracle whose child exited normally with code 7 (raw status
`7 << 8`). -/
def c6y_os : Proc.WaitOS where
  sys_waitpid := fun _ _ => Proc.WaitOutcome.exited (7 * 256)

/-- A live process handle (pid 5, nothing cached yet). -/
def c6x_handle : Proc.ProcessHandle := ⟨5, 0, -1, 0⟩

/-- A child-side oracle where every `dup2` onto stdout's descriptor fails
and everything else succeeds. -/
def c7x_os : Proc.ChildOS where
  sys_dup2 := fun _ newfd => newfd ≠ 1
  sys_open_null := fun _ => Option.some 9
  sys_chdir := fun _ => true
  exec_ok := true

/-- A spawn request for `/bin/cat` with pipes on all three streams. -/
def c7x_req : Proc.SpawnRequest where
  executable := Option.some "/bin/cat"
  args := ["/bin/cat"]
  env := Option.none
  working_dir := Option.none
  stdin_mode := Proc.PipeMode.pipe
  stdout_mode := Proc.PipeMode.pipe
  stderr_mode := Proc.PipeMode.pipe
  flags := 0

/-- A parent-side oracle where all three `pipe()` calls succeed and `fork`
fails with `EAGAIN`. -/
def c8x_os : Proc.SpawnOS where
  sys_pipe_stdin := Except.ok (3, 4)
  sys_pipe_stdout := Except.ok (5, 6)
  sys_pipe_stderr := Except.ok (7, 8)
  sys_fork := Except.error EAGAIN

/-- A pipe oracle whose `close` always succeeds, with one byte available to
read and room to write. -/
def c9x_os : Proc.PipeOS where
  sys_close := fun _ => Option.none
  sys_read_fd := fun _ _ => Except.ok [65]
  sys_write_fd := fun _ buf => Except.ok buf.length

/-- A valid pipe handle on descriptor 3. -/
def c9x_pipe : Proc.PipeHandle := ⟨3, 0⟩

/-- An already-closed pipe handle. -/
def c9x_closed : Proc.PipeHandle := ⟨-1, 0⟩

/-- A zero-length pipe I/O request with a non-null buffer. -/
def c10x_req : Proc.IoRequest := ⟨Option.some [], 0, 0, 0⟩

/-! ## Theorems -/

/-- Claim C1 (corrected), counterexample: a successful `map_memory` call
whose requested length (100) is not a multiple of the system page size
yields a region with `length % actual_page_size = 100 ≠ 0` — the region
keeps the raw requested length, so the alignment invariant claimed for
`length` fails. -/
theorem c1_length_invariant_counterexample :
    (Mmap.map_memory c1x_os (-1) c1x_req).result = Except.ok c1x_region ∧
      c1x_region.length % c1x_region.actual_page_size ≠ 0 := by
  exact ⟨by decide, by decide⟩

/-- Claim C1 (corrected), amended: for every successful `map_memory` call
the region records the *requested* length verbatim and the system page size,
so `length % actual_page_size = 0` holds exactly when the requested length
was already a multiple of the page size; the region's address is the address
returned by the `mmap` syscall unchanged, hence is aligned to
`actual_page_size` whenever the OS returns a page-aligned address. -/
theorem c1_region_geometry_amended (os : Mmap.MmapOS) (fd : Int)
    (req : Mmap.MemoryRequest) (r : Mmap.MemoryRegion)
    (hok : (Mmap.map_memory os fd req).result = Except.ok r) :
    r.length = req.length ∧
    r.actual_page_size = Mmap.get_page_size os ∧
    (req.length % Mmap.get_page_size os = 0 → r.length % r.actual_page_size = 0) ∧
    ∀ a, os.sys_mmap
        (if req.placement = Mmap.PlacementStrategy.any_address then 0 else req.address_hint)
        req.length (Mmap.to_prot_flags req.access) (Mmap.to_map_flags req)
        (if req.backing = Mmap.BackingType.anonymous then -1 else fd) req.offset =
          Except.ok a →
      r.address = a ∧ (a % Mmap.get_page_size os = 0 → r.address % r.actual_page_size = 0) := by
  by_cases h0 : req.length = 0
  · simp [Mmap.map_memory, h0] at hok
  by_cases h1 : req.offset % Mmap.get_page_size os = 0
  · cases hmm : os.sys_mmap
        (if req.placement = Mmap.PlacementStrategy.any_address then 0 else req.address_hint)
        req.length (Mmap.to_prot_flags req.access) (Mmap.to_map_flags req)
        (if req.backing = Mmap.BackingType.anonymous then -1 else fd) req.offset with
    | error e => simp [Mmap.map_memory, h0, h1, hmm] at hok
    | ok mapped_addr =>
      by_cases hl : req.locking = Mmap.LockingStrategy.no_lock
      · by_cases hpp : req.page_pref = Mmap.PagePreference.system_default <;>
        · simp [Mmap.map_memory, h0, h1, hmm, hl, hpp] at hok
          subst hok
          exact ⟨rfl, rfl, fun h => h,
            fun a ha => by cases ha; exact ⟨rfl, fun h => h⟩⟩
      · cases hlk : Mmap.apply_mlock os mapped_addr req.length req.locking with
        | error e => simp [Mmap.map_memory, h0, h1, hmm, hl, hlk] at hok
        | ok u =>
          by_cases hpp : req.page_pref = Mmap.PagePreference.system_default <;>
          · simp [Mmap.map_memory, h0, h1, hmm, hl, hlk, hpp] at hok
            subst hok
            exact ⟨rfl, rfl, fun h => h,
              fun a ha => by cases ha; exact ⟨rfl, fun h => h⟩⟩
  · simp [Mmap.map_memory, h0, h1] at hok

/-- Witness for `c1_region_geometry_amended`: a concrete two-page anonymous
mapping, where both halves of the granted invariant evaluate. -/
theorem c1_region_geometry_amended_witness :
    (Mmap.map_memory c1x_os (-1) c1w_req).result = Except.ok c1w_region ∧
    c1w_region.length % c1w_region.actual_page_size = 0 ∧
    c1w_region.address % c1w_region.actual_page_size = 0 := by
  have hok : (Mmap.map_memory c1x_os (-1) c1w_req).result = Except.ok c1w_region := by decide
  have h := c1_region_geometry_amended c1x_os (-1) c1w_req c1w_region hok
  exact ⟨hok, by rw [h.2.1]; exact h.2.2.1 (by decide),
    ((h.2.2.2 4096 (by decide)).2 (by decide))⟩

/-- Claim C2 (corrected), counterexample: `open_file` on the empty path under
a POSIX-behaved OS returns the translated `ENOENT` error — code
`file_not_found`, not `invalid_argument` — because the empty path is handed
to the OS `open` without any validation. -/
theorem c2_empty_path_counterexample :
    File.open_file c2x_os "" File.defaultFileRequest =
      Except.error ⟨File.ErrorDomain.system, 2, File.ErrorCode.file_not_found⟩ ∧
    File.ErrorCode.file_not_found ≠ File.ErrorCode.invalid_argument := by
  exact ⟨by decide, by decide⟩

/-- Claim C2 (corrected), amended: `open_file` performs no empty-path check;
every path, the empty string included, is passed to the OS `open` call and a
failure is reported as the errno translated through the file manager's
table (for an empty path POSIX yields `ENOENT`, hence `file_not_found` with
domain `system`). -/
theorem c2_open_passthrough_amended (os : File.FileOS) (path : String)
    (req : File.FileRequest) (e : Nat)
    (h : os.sys_open path
        (let f := File.to_open_flags req.access
         if req.native_flags ≠ 0 then f ||| req.native_flags else f) req.permissions =
      Except.error e) :
    File.open_file os path req = Except.error (File.make_system_error e) := by
  simp only [File.open_file]
  rw [h]

/-- Witness for `c2_open_passthrough_amended`: the empty path under the
POSIX-behaved oracle, whose `ENOENT` comes back as `file_not_found`. -/
theorem c2_open_passthrough_amended_witness :
    File.open_file c2x_os "" File.defaultFileRequest =
      Except.error (File.make_system_error ENOENT) := by
  exact c2_open_passthrough_amended c2x_os "" File.defaultFileRequest ENOENT (by decide)

/-- Claim C3 (confirmed): when the mapping syscall succeeds but memory
locking was requested and fails, `map_memory` unmaps exactly the
just-created region and surfaces the lock error; when the lock step
succeeds (which includes `no_lock`), the call succeeds for *every* madvise
oracle — so a failing access-pattern-advice or population-hint `madvise`
can never fail the call, its result being discarded. -/
theorem c3_lock_failure_unwinds (os : Mmap.MmapOS) (fd : Int)
    (req : Mmap.MemoryRequest) (mapped_addr : Nat) (e : Mmap.MemoryError)
    (h0 : req.length ≠ 0)
    (h1 : req.offset % Mmap.get_page_size os = 0)
    (hmm : os.sys_mmap
        (if req.placement = Mmap.PlacementStrategy.any_address then 0 else req.address_hint)
        req.length (Mmap.to_prot_flags req.access) (Mmap.to_map_flags req)
        (if req.backing = Mmap.BackingType.anonymous then -1 else fd) req.offset =
      Except.ok mapped_addr) :
    (req.locking ≠ Mmap.LockingStrategy.no_lock →
      Mmap.apply_mlock os mapped_addr req.length req.locking = Except.error e →
      (Mmap.map_memory os fd req).result = Except.error e ∧
      (Mmap.map_memory os fd req).munmaps = [(mapped_addr, req.length)]) ∧
    (Mmap.apply_mlock os mapped_addr req.length req.locking = Except.ok () →
      ∃ r, (Mmap.map_memory os fd req).result = Except.ok r ∧
        (Mmap.map_memory os fd req).munmaps = []) := by
  constructor
  · intro hl hlk
    by_cases hpp : req.page_pref = Mmap.PagePreference.system_default <;>
    · constructor <;> simp [Mmap.map_memory, h0, h1, hmm, hl, hlk, hpp]
  · intro hlk
    by_cases hl : req.locking = Mmap.LockingStrategy.no_lock <;>
      by_cases hpp : req.page_pref = Mmap.PagePreference.system_default <;>
      · simp [Mmap.map_memory, h0, h1, hmm, hl, hlk, hpp]

/-- Witness for `c3_lock_failure_unwinds`: a one-page anonymous mapping with
`lock_resident` under an OS whose `mlock` fails with `EPERM`; the call
returns the translated lock error and unmapped `(4096, 4096)`. -/
theorem c3_lock_failure_unwinds_witness :
    (Mmap.map_memory c3x_os (-1) c3x_req).result =
      Except.error (Mmap.make_system_error EPERM) ∧
    (Mmap.map_memory c3x_os (-1) c3x_req).munmaps = [(4096, 4096)] := by
  have h := c3_lock_failure_unwinds c3x_os (-1) c3x_req 4096
      (Mmap.make_system_error EPERM) (by decide) (by decide) (by decide)
  exact h.1 (by decide) (by decide)

/-- Claim C4 (confirmed): with the all-ones "current position" sentinel as
offset, `read_file`/`write_file` are stream operations — the shared file
position advances by exactly the bytes transferred; with any other offset
they are positioned operations at that offset and the shared file position
is untouched. -/
theorem c4_stream_vs_positioned (st : File.FileSt) (req : File.IoRequest) :
    (req.offset = File.CURRENT_POS →
      (∃ res st2, File.read_file st req = (Except.ok res, st2) ∧
        st2.pos = st.pos + res.bytes_transferred ∧ st2.data = st.data) ∧
      (∃ res st2, File.write_file st req = (Except.ok res, st2) ∧
        st2.pos = st.pos + res.bytes_transferred ∧
        st2.data = File.store_bytes st.data st.pos (req.buffer.take req.length))) ∧
    (req.offset ≠ File.CURRENT_POS →
      (∃ res st2, File.read_file st req = (Except.ok res, st2) ∧
        st2 = st ∧
        res.bytes_transferred = min req.length (st.data.length - req.offset)) ∧
      (∃ res st2, File.write_file st req = (Except.ok res, st2) ∧
        st2.pos = st.pos ∧
        st2.data = File.store_bytes st.data req.offset (req.buffer.take req.length))) := by
  constructor
  · intro h
    constructor <;>
    · refine ⟨_, _, rfl, ?_, ?_⟩ <;>
        simp [File.read_file, File.write_file, File.sys_read, File.sys_write,
          File.sys_lseek_cur, h]
  · intro h
    constructor <;>
    · refine ⟨_, _, rfl, ?_, ?_⟩ <;>
        simp [File.read_file, File.write_file, File.sys_pread, File.sys_pwrite,
          File.sys_lseek_cur, h]

/-- Witness for `c4_stream_vs_positioned`: on the four-byte file at position
1, a stream read of 2 bytes moves the position to 3, while a positioned
write of 1 byte at offset 2 leaves the position at 1. -/
theorem c4_stream_vs_positioned_witness :
    (∃ res st2, File.read_file c4x_st c4x_stream_req = (Except.ok res, st2) ∧
      st2.pos = c4x_st.pos + res.bytes_transferred ∧ st2.data = c4x_st.data) ∧
    (∃ res st2, File.write_file c4x_st c4x_pos_req = (Except.ok res, st2) ∧
      st2.pos = c4x_st.pos ∧
      st2.data = File.store_bytes c4x_st.data c4x_pos_req.offset
        (c4x_pos_req.buffer.take c4x_pos_req.length)) := by
  exact ⟨(c4_stream_vs_positioned c4x_st c4x_stream_req).1 (by decide) |>.1,
    ((c4_stream_vs_positioned c4x_st c4x_pos_req).2 (by decide)).2⟩

/-- Claim C5 (confirmed): the file manager's errno translation always uses
domain `system` and stores the errno verbatim (it fits in the `uint8_t`
field for every real Linux errno, all < 256); `EINVAL`, `ENOMEM`,
`EACCES`/`EPERM` and `ENOENT` land in their documented buckets, any errno
outside the switch falls back to `io_error`, and an `open` that fails with
`ENOENT` (nonexistent path) surfaces as `file_not_found` in domain
`system`. -/
theorem c5_errno_translation (e : Nat) (he : e < 256) :
    (File.make_system_error e).domain = File.ErrorDomain.system ∧
    (File.make_system_error e).platform_errno = e ∧
    (e = EINVAL → (File.make_system_error e).code = File.ErrorCode.invalid_argument) ∧
    (e = ENOMEM → (File.make_system_error e).code = File.ErrorCode.no_memory) ∧
    (e = EACCES ∨ e = EPERM →
      (File.make_system_error e).code = File.ErrorCode.permission_denied) ∧
    (e = ENOENT → (File.make_system_error e).code = File.ErrorCode.file_not_found) ∧
    (e ∉ File.mapped_errnos → (File.make_system_error e).code = File.ErrorCode.io_error) ∧
    (∀ os : File.FileOS, ∀ path req,
      os.sys_open path
        (let f := File.to_open_flags req.access
         if req.native_flags ≠ 0 then f ||| req.native_flags else f) req.permissions =
        Except.error ENOENT →
      File.open_file os path req =
        Except.error ⟨File.ErrorDomain.system, 2, File.ErrorCode.file_not_found⟩) := by
  refine ⟨rfl, Nat.mod_eq_of_lt he,
    fun h => by subst h; decide, fun h => by subst h; decide,
    fun h => by rcases h with h | h <;> subst h <;> decide,
    fun h => by subst h; decide, fun h => ?_, fun os path req h => ?_⟩
  · simp only [File.mapped_errnos, List.mem_cons, List.not_mem_nil, or_false] at h
    push_neg at h
    obtain ⟨q1, q2, q3, q4, q5, q6, q7, q8, q9, q10, q11, q12, q13, q14, q15, q16, q17, q18⟩ := h
    simp [File.make_system_error, q1, q2, q3, q4, q5, q6, q7, q8, q9, q10, q11, q12,
      q13, q14, q15, q16, q17, q18]
  · simp only [File.open_file]
    rw [h]
    rfl

/-- Witness for `c5_errno_translation`: errno 13 (`EACCES`) keeps its value
and lands in `permission_denied`. -/
theorem c5_errno_translation_witness :
    (File.make_system_error 13).platform_errno = 13 ∧
    (File.make_system_error 13).code = File.ErrorCode.permission_denied := by
  have h := c5_errno_translation 13 (by decide)
  exact ⟨h.2.1, h.2.2.2.2.1 (Or.inl rfl)⟩

/-- Claim C6 (confirmed): on a valid handle, `wait_process` with
`no_hang = true` maps a still-running child to the `would_block` error; a
reaped child's status is decoded to `WEXITSTATUS` on a normal exit and to
`128 + WTERMSIG` on a signal death, and the decoded value is cached in the
handle's `exit_code` with its state marked terminated (1). -/
theorem c6_wait_decode (os : Proc.WaitOS) (h : Proc.ProcessHandle)
    (hv : h.is_valid = true) :
    (os.sys_waitpid h.pid true = Proc.WaitOutcome.running →
      Proc.wait_process os h true =
        (Except.error (Proc.ProcessError.ofCode Proc.ErrorCode.would_block), h)) ∧
    (∀ nh s, os.sys_waitpid h.pid nh = Proc.WaitOutcome.exited s →
      Proc.wifexited s = true →
      Proc.wait_process os h nh =
        (Except.ok (Proc.wexitstatus s : Int),
         { h with exit_code := (Proc.wexitstatus s : Int), state := 1 })) ∧
    (∀ nh s, os.sys_waitpid h.pid nh = Proc.WaitOutcome.exited s →
      Proc.wifexited s = false → Proc.wifsignaled s = true →
      Proc.wait_process os h nh =
        (Except.ok (128 + (Proc.wtermsig s : Int)),
         { h with exit_code := 128 + (Proc.wtermsig s : Int), state := 1 })) := by
  refine ⟨fun hr => ?_, fun nh s hs hx => ?_, fun nh s hs hx hsig => ?_⟩
  · simp [Proc.wait_process, hv, hr]
  · simp [Proc.wait_process, hv, hs, hx]
  · simp [Proc.wait_process, hv, hs, hx, hsig]

/-- Witness for `c6_wait_decode`: pid 5 polled while running yields
`would_block`; reaped with raw status 9 (SIGKILL) yields exit code 137 and a
terminated handle; reaped with raw status `7 << 8` yields exit code 7. -/
theorem c6_wait_decode_witness :
    Proc.wait_process c6x_os c6x_handle true =
      (Except.error (Proc.ProcessError.ofCode Proc.ErrorCode.would_block), c6x_handle) ∧
    Proc.wait_process c6x_os c6x_handle false =
      (Except.ok 137, { c6x_handle with exit_code := 137, state := 1 }) ∧
    Proc.wait_process c6y_os c6x_handle false =
      (Except.ok 7, { c6x_handle with exit_code := 7, state := 1 }) := by
  refine ⟨(c6_wait_decode c6x_os c6x_handle (by decide)).1 (by decide), ?_, ?_⟩
  · exact (c6_wait_decode c6x_os c6x_handle (by decide)).2.2 false 9
      (by decide) (by decide) (by decide)
  · exact (c6_wait_decode c6y_os c6x_handle (by decide)).2.1 false (7 * 256)
      (by decide) (by decide)

/-- Claim C7 (confirmed): the child branch after `fork` can only end in a
successful `exec` or in `_exit(127)` — it never returns into parent code —
and it ends in `_exit(127)` whenever a pipe-redirecting `dup2` fails, a
requested `chdir` fails, or `exec` fails. -/
theorem c7_child_exit127 (os : Proc.ChildOS) (req : Proc.SpawnRequest)
    (ifds ofds efds : Int × Int) :
    (Proc.child_run os req ifds ofds efds = Proc.ChildOutcome.execed ∨
     Proc.child_run os req ifds ofds efds = Proc.ChildOutcome.exited 127) ∧
    (req.stdin_mode = Proc.PipeMode.pipe → os.sys_dup2 ifds.1 0 = false →
      Proc.child_run os req ifds ofds efds = Proc.ChildOutcome.exited 127) ∧
    (req.stdout_mode = Proc.PipeMode.pipe → os.sys_dup2 ofds.2 1 = false →
      Proc.child_run os req ifds ofds efds = Proc.ChildOutcome.exited 127) ∧
    (req.stderr_mode = Proc.PipeMode.pipe → os.sys_dup2 efds.2 2 = false →
      Proc.child_run os req ifds ofds efds = Proc.ChildOutcome.exited 127) ∧
    (∀ d, req.working_dir = Option.some d → os.sys_chdir d = false →
      Proc.child_run os req ifds ofds efds = Proc.ChildOutcome.exited 127) ∧
    (os.exec_ok = false →
      Proc.child_run os req ifds ofds efds = Proc.ChildOutcome.exited 127) := by
  unfold Proc.child_run Proc.child_exec_step
  rcases hwd : req.working_dir with _ | d <;>
    split_ifs <;> simp_all

/-- Witness for `c7_child_exit127`: spawning with all three streams piped
under an oracle whose `dup2` onto stdout fails makes the child `_exit(127)`. -/
theorem c7_child_exit127_witness :
    Proc.child_run c7x_os c7x_req (3, 4) (5, 6) (7, 8) = Proc.ChildOutcome.exited 127 := by
  exact (c7_child_exit127 c7x_os c7x_req (3, 4) (5, 6) (7, 8)).2.2.1 (by decide) (by decide)

/-- Claim C8 (confirmed): `spawn_process` creates the requested pipes before
`fork`; if a later pipe creation fails, both descriptors of every pair
created for an earlier stream are closed, the translated error is returned,
no pipe handle is handed out, and `fork` is never reached; the same cleanup
of all created pairs happens when `fork` itself fails. -/
theorem c8_pipe_cleanup (os : Proc.SpawnOS) (req : Proc.SpawnRequest)
    (hx : req.executable ≠ Option.none) :
    (∀ cin e,
      (if req.stdin_mode = Proc.PipeMode.pipe
       then os.sys_pipe_stdin.map Option.some else Except.ok Option.none) =
        Except.ok cin →
      req.stdout_mode = Proc.PipeMode.pipe → os.sys_pipe_stdout = Except.error e →
      Proc.spawn_process os req =
        ⟨Except.error (Proc.make_system_error e), Proc.close_pair cin,
         Option.none, Option.none, Option.none, false⟩) ∧
    (∀ cin cout e,
      (if req.stdin_mode = Proc.PipeMode.pipe
       then os.sys_pipe_stdin.map Option.some else Except.ok Option.none) =
        Except.ok cin →
      (if req.stdout_mode = Proc.PipeMode.pipe
       then os.sys_pipe_stdout.map Option.some else Except.ok Option.none) =
        Except.ok cout →
      req.stderr_mode = Proc.PipeMode.pipe → os.sys_pipe_stderr = Except.error e →
      Proc.spawn_process os req =
        ⟨Except.error (Proc.make_system_error e),
         Proc.close_pair cin ++ Proc.close_pair cout,
         Option.none, Option.none, Option.none, false⟩) ∧
    (∀ cin cout cerr e,
      (if req.stdin_mode = Proc.PipeMode.pipe
       then os.sys_pipe_stdin.map Option.some else Except.ok Option.none) =
        Except.ok cin →
      (if req.stdout_mode = Proc.PipeMode.pipe
       then os.sys_pipe_stdout.map Option.some else Except.ok Option.none) =
        Except.ok cout →
      (if req.stderr_mode = Proc.PipeMode.pipe
       then os.sys_pipe_stderr.map Option.some else Except.ok Option.none) =
        Except.ok cerr →
      os.sys_fork = Except.error e →
      Proc.spawn_process os req =
        ⟨Except.error (Proc.make_system_error e),
         Proc.close_pair cin ++ Proc.close_pair cout ++ Proc.close_pair cerr,
         Option.none, Option.none, Option.none, true⟩) := by
  refine ⟨fun cin e hin hom hof => ?_, fun cin cout e hin hout hem hef => ?_,
    fun cin cout cerr e hin hout herr hf => ?_⟩
  · simp only [Proc.spawn_process, if_neg hx]
    rw [hin]
    simp [hom, hof, Except.map]
  · simp only [Proc.spawn_process, if_neg hx]
    rw [hin, hout]
    simp [hem, hef, Except.map]
  · simp only [Proc.spawn_process, if_neg hx]
    rw [hin, hout, herr, hf]

/-- Witness for `c8_pipe_cleanup`: all three pipes requested and created as
(3,4), (5,6), (7,8), then `fork` fails with `EAGAIN`: every descriptor is
closed, the error is the translated `EAGAIN`, and no handle is handed out. -/
theorem c8_pipe_cleanup_witness :
    Proc.spawn_process c8x_os c7x_req =
      ⟨Except.error (Proc.make_system_error EAGAIN), [3, 4, 5, 6, 7, 8],
       Option.none, Option.none, Option.none, true⟩ := by
  have h := (c8_pipe_cleanup c8x_os c7x_req (by decide)).2.2
      (Option.some (3, 4)) (Option.some (5, 6)) (Option.some (7, 8)) EAGAIN
      (by decide) (by decide) (by decide) (by decide)
  exact h

/-- Claim C9 (confirmed): `close_pipe` on an already-invalid handle returns
success (twice in a row, the handle never changing); on a valid handle whose
OS `close` succeeds it returns success, sets the descriptor to −1, and a
second call on the now-invalid handle again returns success. -/
theorem c9_close_pipe_idempotent (os : Proc.PipeOS) (p : Proc.PipeHandle) :
    (p.is_valid = false →
      Proc.close_pipe os p = (Except.ok (), p) ∧
      Proc.close_pipe os (Proc.close_pipe os p).2 = (Except.ok (), p)) ∧
    (p.is_valid = true → os.sys_close p.fd = Option.none →
      (Proc.close_pipe os p).1 = Except.ok () ∧
      (Proc.close_pipe os p).2.fd = -1 ∧
      (Proc.close_pipe os (Proc.close_pipe os p).2).1 = Except.ok ()) := by
  constructor
  · intro hbad
    have h1 : Proc.close_pipe os p = (Except.ok (), p) := by
      simp [Proc.close_pipe, hbad]
    exact ⟨h1, by rw [h1]; exact h1⟩
  · intro hok hcl
    have h1 : Proc.close_pipe os p = (Except.ok (), { p with fd := -1 }) := by
      simp [Proc.close_pipe, hok, hcl]
    refine ⟨by rw [h1], by rw [h1], ?_⟩
    rw [h1]
    simp [Proc.close_pipe, Proc.PipeHandle.is_valid]

/-- Witness for `c9_close_pipe_idempotent`: closing descriptor 3 succeeds
and invalidates the handle, a second close still succeeds; and both calls on
an already-closed handle succeed. -/
theorem c9_close_pipe_idempotent_witness :
    (Proc.close_pipe c9x_os c9x_pipe).1 = Except.ok () ∧
    (Proc.close_pipe c9x_os c9x_pipe).2.fd = -1 ∧
    (Proc.close_pipe c9x_os (Proc.close_pipe c9x_os c9x_pipe).2).1 = Except.ok () ∧
    Proc.close_pipe c9x_os c9x_closed = (Except.ok (), c9x_closed) ∧
    Proc.close_pipe c9x_os (Proc.close_pipe c9x_os c9x_closed).2 =
      (Except.ok (), c9x_closed) := by
  have hv := (c9_close_pipe_idempotent c9x_os c9x_pipe).2 (by decide) (by decide)
  have hi := (c9_close_pipe_idempotent c9x_os c9x_closed).1 (by decide)
  exact ⟨hv.1, hv.2.1, hv.2.2, hi.1, hi.2⟩

/-- Claim C10 (confirmed): `read_pipe` and `write_pipe` reject an invalid
handle, a null buffer, or a zero length with `invalid_argument` before any
OS read/write is issued (the `false` flag records that no syscall ran); in
particular a zero-length pipe transfer is an error, not an empty success. -/
theorem c10_pipe_arg_validation (os : Proc.PipeOS) (p : Proc.PipeHandle)
    (req : Proc.IoRequest)
    (hbad : p.is_valid = false ∨ req.buffer = Option.none ∨ req.length = 0) :
    Proc.read_pipe os p req =
      (Except.error (Proc.ProcessError.ofCode Proc.ErrorCode.invalid_argument), false) ∧
    Proc.write_pipe os p req =
      (Except.error (Proc.ProcessError.ofCode Proc.ErrorCode.invalid_argument), false) := by
  rcases hbad with hb | hb | hb <;>
    constructor <;> simp [Proc.read_pipe, Proc.write_pipe, hb]

/-- Witness for `c10_pipe_arg_validation`: a zero-length request on a valid
pipe with a non-null buffer is rejected by both operations without touching
the OS. -/
theorem c10_pipe_arg_validation_witness :
    Proc.read_pipe c9x_os c9x_pipe c10x_req =
      (Except.error (Proc.ProcessError.ofCode Proc.ErrorCode.invalid_argument), false) ∧
    Proc.write_pipe c9x_os c9x_pipe c10x_req =
      (Except.error (Proc.ProcessError.ofCode Proc.ErrorCode.invalid_argument), false) := by
  exact c10_pipe_arg_validation c9x_os c9x_pipe c10x_req (Or.inr (Or.inr rfl))

end Asyncle
